import Mathlib

/-!
Verification of the go-scm webhook codec (`scm/webhook.go`) and the GitLab
request executor (`scm/driver/gitlab/gitlab.go`) against their specification.

JSON byte strings are modelled at two levels: raw bodies arriving over HTTP
are Lean `String`s fed to a small JSON parser (`jsonParse`) that models
`encoding/json` over the grammar fragment the code exercises (objects,
arrays, strings with simple escapes, integers, booleans, null); values that
the code builds in memory and hands to `json.Marshal` are modelled directly
as parse trees (`Jval`).
-/

/-- Parse tree of a JSON document, the shape `encoding/json` produces and
consumes.  Object fields keep their textual order. -/
inductive Jval where
  | jnull
  | jbool (b : Bool)
  | jnum (n : Int)
  | jstr (s : String)
  | jarr (elems : List Jval)
  | jobj (fields : List (String × Jval))

/-- Byte-order comparison of character lists, the order `json.Marshal` uses
when it sorts the keys of a Go map. -/
def charListLe : List Char → List Char → Bool
  | [], _ => true
  | c :: cs, d :: ds =>
    if c.toNat = d.toNat then charListLe cs ds
    else Nat.blt c.toNat d.toNat
  | _ :: _, [] => false

/-- Byte-order comparison of strings (all keys involved are ASCII, where
byte order and code-point order agree). -/
def strLe (s t : String) : Bool := charListLe s.data t.data

/-- Insert one key/value pair into a key-sorted association list. -/
def sortPairsInsert (p : String × α) : List (String × α) → List (String × α)
  | [] => [p]
  | q :: qs => if strLe p.1 q.1 then p :: q :: qs else q :: sortPairsInsert p qs

/-- Sort an association list by key, the order `json.Marshal` emits the
entries of a `map[string]interface\x7b\x7d`. -/
def sortPairs : List (String × α) → List (String × α)
  | [] => []
  | p :: ps => sortPairsInsert p (sortPairs ps)

/-- Models `json.Marshal` applied to a Go map: the entries are written as a
JSON object with the keys in sorted order (the Go runtime sorts map keys
before serializing). -/
def marshalMap (pairs : List (String × Jval)) : Jval := .jobj (sortPairs pairs)

/-- The four insignificant whitespace characters of the JSON grammar
(space, tab, newline, carriage return by code point). -/
def isJsonWs (c : Char) : Bool :=
  c.toNat = 32 || c.toNat = 9 || c.toNat = 10 || c.toNat = 13

/-- Skip JSON insignificant whitespace. -/
def skipWs : List Char → List Char
  | c :: cs => if isJsonWs c then skipWs cs else c :: cs
  | [] => []

/-- Decode a single-character JSON escape sequence (the `\uXXXX` form is
not in the fragment the claims exercise). -/
def escChar (c : Char) : Option Char :=
  if c = 'n' then some '\n'
  else if c = 't' then some '\t'
  else if c = 'r' then some '\r'
  else if c = 'b' then some (Char.ofNat 8)
  else if c = 'f' then some (Char.ofNat 12)
  else if c = '"' ∨ c = '\\' ∨ c = '/' then some c
  else none

/-- Parse the body of a JSON string literal after its opening quote,
returning the decoded characters and the rest of the input. -/
def parseStringBody : List Char → Option (List Char × List Char)
  | [] => none
  | '"' :: rest => some ([], rest)
  | '\\' :: c :: rest => do
      let e ← escChar c
      let (s, r) ← parseStringBody rest
      some (e :: s, r)
  | c :: rest =>
      if c = '\\' then none
      else do
        let (s, r) ← parseStringBody rest
        some (c :: s, r)

/-- Split the leading decimal digits off a character list. -/
def takeDigits : List Char → List Char × List Char
  | [] => ([], [])
  | c :: cs =>
    if c.isDigit then
      let (ds, rest) := takeDigits cs
      (c :: ds, rest)
    else ([], c :: cs)

/-- Numeric value of a list of decimal digits. -/
def digitsToNat (ds : List Char) : Nat :=
  ds.foldl (fun a c => 10 * a + (c.toNat - 48)) 0

/-- Parse a nonempty run of decimal digits. -/
def parseNatNum (cs : List Char) : Option (Nat × List Char) :=
  match takeDigits cs with
  | ([], _) => none
  | (ds, rest) => some (digitsToNat ds, rest)

mutual

/-- Fuel-indexed recursive-descent parser for one JSON value; models
`encoding/json` over the fragment the repository's bodies exercise. -/
def parseVal : Nat → List Char → Option (Jval × List Char)
  | 0, _ => none
  | fuel + 1, cs =>
    match skipWs cs with
    | 'n' :: rest =>
        if rest.take 3 = ['u', 'l', 'l'] then some (.jnull, rest.drop 3) else none
    | 't' :: rest =>
        if rest.take 3 = ['r', 'u', 'e'] then some (.jbool true, rest.drop 3) else none
    | 'f' :: rest =>
        if rest.take 4 = ['a', 'l', 's', 'e'] then some (.jbool false, rest.drop 4) else none
    | '"' :: rest => do
        let (s, r) ← parseStringBody rest
        some (.jstr (String.mk s), r)
    | '[' :: rest =>
        (match skipWs rest with
         | ']' :: r => some (.jarr [], r)
         | _ => do
            let (xs, r) ← parseElems fuel rest
            some (.jarr xs, r))
    | '\x7b' :: rest =>
        (match skipWs rest with
         | '\x7d' :: r => some (.jobj [], r)
         | _ => do
            let (fs, r) ← parseMembers fuel rest
            some (.jobj fs, r))
    | '-' :: rest => do
        let (n, r) ← parseNatNum rest
        some (.jnum (-(n : Int)), r)
    | c :: rest =>
        if c.isDigit then do
          let (n, r) ← parseNatNum (c :: rest)
          some (.jnum (n : Int), r)
        else none
    | [] => none

/-- Parse the comma-separated elements of a JSON array up to the closing
bracket. -/
def parseElems : Nat → List Char → Option (List Jval × List Char)
  | 0, _ => none
  | fuel + 1, cs => do
    let (v, r) ← parseVal fuel cs
    match skipWs r with
    | ',' :: r2 => do
        let (vs, r3) ← parseElems fuel r2
        some (v :: vs, r3)
    | ']' :: r2 => some ([v], r2)
    | _ => none

/-- Parse the comma-separated members of a JSON object up to the closing
brace. -/
def parseMembers : Nat → List Char → Option (List (String × Jval) × List Char)
  | 0, _ => none
  | fuel + 1, cs =>
    match skipWs cs with
    | '"' :: rest => do
        let (k, r) ← parseStringBody rest
        match skipWs r with
        | ':' :: r2 => do
            let (v, r3) ← parseVal fuel r2
            match skipWs r3 with
            | ',' :: r4 => do
                let (fs, r5) ← parseMembers fuel r4
                some ((String.mk k, v) :: fs, r5)
            | '\x7d' :: r4 => some ([(String.mk k, v)], r4)
            | _ => none
        | _ => none
    | _ => none

end

/-- Models `json.Unmarshal`'s lexical phase: parse a whole byte string as a
single JSON document (trailing non-whitespace is an error, as in Go). -/
def jsonParse (s : String) : Option Jval :=
  match parseVal (s.length + 2) s.data with
  | some (v, rest) => if skipWs rest = [] then some v else none
  | none => none

/-! ## Models of the Go standard-library operations the executor uses -/

/-- Models `http.Header.Get`: the first value stored under the key, or the
empty string when the header is absent (the claims only exercise
canonical-case keys, so canonicalization is the identity here). -/
def headerGet (h : List (String × String)) (k : String) : String :=
  match h.lookup k with
  | some v => v
  | none => ""

/-- Whether a string is a syntactically valid decimal integer for
`strconv.Atoi` / `strconv.ParseInt`: an optional sign followed by at least
one digit and nothing else. -/
def isGoIntStr (s : String) : Bool :=
  match s.data with
  | [] => false
  | '+' :: ds => !ds.isEmpty && ds.all Char.isDigit
  | '-' :: ds => !ds.isEmpty && ds.all Char.isDigit
  | ds => ds.all Char.isDigit

/-- Models `strconv.Atoi` (and `strconv.ParseInt` base 10) with the error
discarded, exactly as the executor uses it: a well-formed decimal string
parses to its value, anything else leaves the zero value.  (The claims do
not exercise 64-bit overflow, which is not modelled.) -/
def atoi (s : String) : Int :=
  if isGoIntStr s then
    match s.data with
    | '+' :: ds => (digitsToNat ds : Int)
    | '-' :: ds => -(digitsToNat ds : Int)
    | ds => (digitsToNat ds : Int)
  else 0

/-- Models the Go string-slicing expression `s[low:high]`: `none` is the
out-of-range panic, raised unless `0 ≤ low ≤ high ≤ len(s)`.  (All bodies
the claims slice are ASCII, where Go's byte indexing and character indexing
agree.) -/
def goSlice (s : String) (low high : Int) : Option String :=
  if 0 ≤ low ∧ low ≤ high ∧ high ≤ (s.length : Int) then
    some (String.mk ((s.data.drop low.toNat).take (high - low).toNat))
  else none

/-- Hexadecimal digit character (uppercase), as `net/url` escaping emits. -/
def hexDigitChar (n : Nat) : Char :=
  if n < 10 then Char.ofNat (48 + n) else Char.ofNat (55 + n)

/-- Characters `net/url.QueryEscape` leaves unescaped. -/
def isUnreservedQueryChar (c : Char) : Bool :=
  c.isAlphanum || c = '-' || c = '_' || c = '.' || c = '~'

/-- Escape one character the way `net/url.QueryEscape` does: unreserved
characters pass through, space becomes `+`, everything else becomes a
percent-escaped byte (the names the claims use are ASCII). -/
def queryEscapeChar (c : Char) : List Char :=
  if isUnreservedQueryChar c then [c]
  else if c = ' ' then ['+']
  else ['%', hexDigitChar (c.toNat / 16), hexDigitChar (c.toNat % 16)]

/-- Models `net/url.QueryEscape`. -/
def queryEscape (s : String) : String :=
  String.mk ((s.data.map queryEscapeChar).flatten)

/-- Models `url.Values.Encode`: entries sorted by key, each written as
`key=value` with both sides query-escaped, joined with `&`. -/
def valuesEncode (kvs : List (String × String)) : String :=
  String.intercalate "&"
    ((sortPairs kvs).map fun p => queryEscape p.1 ++ "=" ++ queryEscape p.2)

/-! ## The scm envelope and client state

The `scm` package types the executor populates (`scm.Response`, the client's
rate snapshot) are declared outside the visible files; they are modelled
from the spec here. -/

/-- Modelled from the spec: the rate-limit triple of the Response Envelope,
`\x7blimit: int, remaining: int, resetEpoch: int64\x7d` parsed from headers
(spec §3), corresponding to `scm.Rate`, which is not among the visible
files. -/
structure Rate where
  limit : Int
  remaining : Int
  reset : Int
  deriving DecidableEq, Repr

/-- Modelled from the spec: the Response Envelope of one HTTP exchange
(spec §3) — status, headers, raw body, request id and rate snapshot —
corresponding to `scm.Response`, which is not among the visible files.
`status`, `header` and `body` arrive from the transport; `id` and `rate`
are filled in by the executor. -/
structure Response where
  status : Nat
  header : List (String × String)
  body : String
  id : String
  rate : Rate
  deriving DecidableEq, Repr

/-- Modelled from the spec: the process-wide Rate Limiter State (spec §3,
§4.3) held by `scm.Client`, whose `SetRate` overwrites the singleton
snapshot; `scm.Client` is not among the visible files. -/
structure ClientState where
  rate : Rate
  deriving DecidableEq, Repr

/-- Outcome of the one blocking transport call `c.Client.Do`: either a
transport failure (connection error, no envelope) or a raw response. -/
inductive TransportResult where
  | failure (msg : String)
  | success (res : Response)
  deriving DecidableEq, Repr

/-! ## The GitLab driver (`scm/driver/gitlab/gitlab.go`) -/

/-- The `gl_namespace` struct (gitlab.go lines 97–106), with its JSON tag
names. -/
structure GlNamespace where
  id : Int
  name : String
  path : String
  kind : String
  full_path : String
  parent_id : Int
  avatar_url : String
  web_url : String
  deriving DecidableEq, Repr

/-- The zero value of `gl_namespace`, what `new(gl_namespace)` allocates. -/
def nsZero : GlNamespace := ⟨0, "", "", "", "", 0, "", ""⟩

/-- The GitLab `Error` struct (gitlab.go lines 252–254): one `message`
field. -/
structure GlError where
  message : String
  deriving DecidableEq, Repr

/-- Models the method `func (e *Error) Error() string` (gitlab.go lines
256–258): the display form of the error is its `Message` field. -/
def glErrorString (e : GlError) : String := e.message

/-- Store one JSON value into a Go `string` struct field the way
`encoding/json` does: a string overwrites the field, JSON `null` is a
no-op, and any other type leaves the field while flagging an
`UnmarshalTypeError`. -/
def storeStrField (v : Jval) (prior : String) : String × Bool :=
  match v with
  | .jstr s => (s, false)
  | .jnull => (prior, false)
  | _ => (prior, true)

/-- Store one JSON value into a Go `int` struct field: a number overwrites
the field, JSON `null` is a no-op, and any other type leaves the field
while flagging an `UnmarshalTypeError`. -/
def storeIntField (v : Jval) (prior : Int) : Int × Bool :=
  match v with
  | .jnum n => (n, false)
  | .jnull => (prior, false)
  | _ => (prior, true)

/-- Store one member of a JSON object into a `gl_namespace` under its JSON
tag name; an unknown key is ignored.  The flag reports a type mismatch on
the member. -/
def glNamespaceStoreField (ns : GlNamespace) (k : String) (v : Jval) :
    GlNamespace × Bool :=
  if k = "id" then
    let r := storeIntField v ns.id
    ({ ns with id := r.1 }, r.2)
  else if k = "name" then
    let r := storeStrField v ns.name
    ({ ns with name := r.1 }, r.2)
  else if k = "path" then
    let r := storeStrField v ns.path
    ({ ns with path := r.1 }, r.2)
  else if k = "kind" then
    let r := storeStrField v ns.kind
    ({ ns with kind := r.1 }, r.2)
  else if k = "full_path" then
    let r := storeStrField v ns.full_path
    ({ ns with full_path := r.1 }, r.2)
  else if k = "parent_id" then
    let r := storeIntField v ns.parent_id
    ({ ns with parent_id := r.1 }, r.2)
  else if k = "avatar_url" then
    let r := storeStrField v ns.avatar_url
    ({ ns with avatar_url := r.1 }, r.2)
  else if k = "web_url" then
    let r := storeStrField v ns.web_url
    ({ ns with web_url := r.1 }, r.2)
  else (ns, false)

/-- Decode the members of a JSON object into a `gl_namespace` the way
`encoding/json` decodes into a struct: members are processed in order (a
later duplicate overwrites an earlier one), and a type-mismatched member
saves an `UnmarshalTypeError` while decoding continues with the remaining
members — Go completes the unmarshaling as best it can, so the struct is
still partially populated.  The first saved error is the one returned. -/
def glNamespaceDecodeObj (base : GlNamespace) :
    List (String × Jval) → GlNamespace × Option String
  | [] => (base, none)
  | (k, v) :: rest =>
    let s := glNamespaceStoreField base k v
    let r := glNamespaceDecodeObj s.1 rest
    (r.1,
     if s.2 then some ("json: cannot unmarshal value into Go struct field gl_namespace." ++ k)
     else r.2)

/-- Models `json.Unmarshal([]byte(body), &out)` where `out` is the caller's
`*gl_namespace` variable (so the decoder sees a pointer to a pointer):
returns the new value of the pointer and the decode error.  Invalid JSON
fails and leaves the pointer untouched; the JSON literal `null` sets the
pointer itself to nil; an object decodes into the pointed-to struct
(save-error-and-continue on mismatched fields, so the struct can be
partially populated even when an error is returned); any other document is
a type error that leaves the pointer untouched. -/
def unmarshalNamespacePtr (body : String) (p : Option GlNamespace) :
    Option GlNamespace × Option String :=
  match jsonParse body with
  | none => (p, some "unexpected end of JSON input")
  | some .jnull => (none, none)
  | some (.jobj fs) =>
    (some (glNamespaceDecodeObj (p.getD nsZero) fs).1,
     (glNamespaceDecodeObj (p.getD nsZero) fs).2)
  | some _ => (p, some "json: cannot unmarshal value into Go value of type gitlab.gl_namespace")

/-- Models `json.Unmarshal([]byte(body), &err_i)` in `do`'s error branch,
where `err_i` is a freshly allocated `*Error` and the decoder again sees a
pointer to a pointer (gitlab.go lines 232–233): the result is the final
value of the `err_i` pointer.  A body of `null` sets the pointer itself to
nil; a decodable `message` string is stored; any failure leaves the prior
(zero-message) allocation in place, the error being discarded. -/
def unmarshalErrorPtr (body : String) (p : Option GlError) : Option GlError :=
  match jsonParse body with
  | none => p
  | some .jnull => none
  | some (.jobj fs) =>
      match fs.lookup "message" with
      | some (.jstr m) => some ⟨m⟩
      | _ => some (p.getD ⟨""⟩)
  | some _ => p

/-- Models `json.NewDecoder(res.Body).Decode(err)` in `do_gl_namespace`'s
error branch (gitlab.go lines 164–165), where `err` is a plain `*Error`
(no second indirection, so `null` cannot nil the pointer): the decoded
`message` when the body is an object carrying one, otherwise the zero
message, the decode error being discarded. -/
def decodeErrorValue (body : String) : GlError :=
  match jsonParse body with
  | some (.jobj fs) =>
      match fs.lookup "message" with
      | some (.jstr m) => ⟨m⟩
      | _ => ⟨""⟩
  | _ => ⟨""⟩

/-- The error value a call through the wrapper can return: the surfaced
transport error, the GitLab `*Error` of the non-success branch (`none` is a
nil `*Error` pointer), or a `json.Unmarshal` failure of the success-path
decode. -/
inductive DoErr where
  | transport (msg : String)
  | gl (e : Option GlError)
  | unmarshal (msg : String)
  deriving DecidableEq, Repr

/-- Header extraction both executors perform on the raw response before
branching on status (gitlab.go lines 209–221 and 144–156): the request id
from `X-Request-Id` and the rate triple from the three `RateLimit-*`
headers, parse errors discarded. -/
def populate (res : Response) : Response :=
  { res with
    id := headerGet res.header "X-Request-Id",
    rate := ⟨atoi (headerGet res.header "RateLimit-Limit"),
             atoi (headerGet res.header "RateLimit-Remaining"),
             atoi (headerGet res.header "RateLimit-Reset")⟩ }

/-- Everything one call to `wrapper.do` leaves behind: the client's rate
snapshot, the returned envelope (`none` on transport failure), the returned
error, and the final value of the caller's output pointer (`none` when no
output was requested, `some p` the pointer's final contents). -/
structure DoOutcome where
  client : ClientState
  res : Option Response
  err : Option DoErr
  outPtr : Option (Option GlNamespace)
  deriving DecidableEq, Repr

/-- Models `wrapper.do` (gitlab.go lines 186–249) for a GET-style call
(`in = nil`; the visible caller passes none): surface a transport failure
without an envelope; otherwise populate the envelope's id and rate, update
the client's rate snapshot, and branch — status strictly above 300 decodes
the body through the error pointer and returns it, status at most 300
returns directly when no output is requested and otherwise unmarshals the
body into the output pointer. -/
def wrapperDo (client : ClientState) (tr : TransportResult)
    (out : Option (Option GlNamespace)) : DoOutcome :=
  match tr with
  | .failure msg => ⟨client, none, some (.transport msg), out⟩
  | .success res0 =>
    let res := populate res0
    let client := ClientState.mk res.rate
    if 300 < res.status then
      ⟨client, some res, some (.gl (unmarshalErrorPtr res.body (some ⟨""⟩))), out⟩
    else
      match out with
      | none => ⟨client, some res, none, none⟩
      | some p =>
        let dec := unmarshalNamespacePtr res.body p
        ⟨client, some res, dec.2.map .unmarshal, some dec.1⟩

/-- Result of `wrapper.do_gl_namespace`: either the run aborts in a runtime
panic (the out-of-range string slice), or it returns an outcome like
`do`'s. -/
inductive GlDoResult where
  | panics (client : ClientState) (msg : String)
  | ok (outcome : DoOutcome)
  deriving DecidableEq, Repr

/-- Models `wrapper.do_gl_namespace` (gitlab.go lines 121–182): identical
to `do` up to the status branch (its error branch decodes through a plain
`*Error`), but on the success path with an output requested it first strips
the first and last byte of the body — the Go expression
`buf.String()[1:len(str_buf)-1]`, which panics when the body is shorter
than two bytes — and unmarshals the remainder into the output pointer. -/
def wrapperDoGlNamespace (client : ClientState) (tr : TransportResult)
    (out : Option (Option GlNamespace)) : GlDoResult :=
  match tr with
  | .failure msg => .ok ⟨client, none, some (.transport msg), out⟩
  | .success res0 =>
    let res := populate res0
    let client := ClientState.mk res.rate
    if 300 < res.status then
      .ok ⟨client, some res, some (.gl (some (decodeErrorValue res.body))), out⟩
    else
      match out with
      | none => .ok ⟨client, some res, none, none⟩
      | some p =>
        match goSlice res.body 1 ((res.body.length : Int) - 1) with
        | none => .panics client "slice bounds out of range"
        | some inner =>
          let dec := unmarshalNamespacePtr inner p
          .ok ⟨client, some res, dec.2.map .unmarshal, some dec.1⟩

/-- What `wrapper.findNamespaceByName` returns (plus the request path it
issued, recorded as an observable). -/
structure FindNsResult where
  client : ClientState
  ns : Option GlNamespace
  err : Option DoErr
  reqPath : String
  deriving DecidableEq, Repr

/-- Models `wrapper.findNamespaceByName` (gitlab.go lines 109–118): build
the query path `api/v4/namespaces?search=<name>` via `url.Values.Encode`,
allocate a zero `gl_namespace` for the output, issue the call through
`wrapper.do` — the plain executor, not `do_gl_namespace` — and return the
output pointer's final contents together with the call's error. -/
def findNamespaceByName (client : ClientState) (tr : TransportResult)
    (name : String) : FindNsResult :=
  let path := "api/v4/namespaces?" ++ valuesEncode [("search", name)]
  let r := wrapperDo client tr (some (some nsZero))
  ⟨r.client, r.outPtr.getD (some nsZero), r.err, path⟩

/-! ## The webhook model (`scm/webhook.go`)

The declarations live in a `scm` namespace mirroring the Go package (and
keeping names such as `Action` clear of Mathlib's). -/

namespace scm

/-- Modelled from the spec: `scm.Repository`, the repository value every
variant exposes (spec §3); its own fields are declared outside the visible
files and no claim inspects them, so the value is represented by its JSON
image under `json.Marshal`. -/
structure Repository where
  json : Jval

/-- Modelled from the spec: `scm.User` (the `sender` field of the variants,
spec §3); declared outside the visible files, represented by its JSON
image. -/
structure User where
  json : Jval

/-- Modelled from the spec: `scm.Commit` (the `headCommit` field of the
Push variant, spec §3); declared outside the visible files, represented by
its JSON image. -/
structure Commit where
  json : Jval

/-- Modelled from the spec: `scm.Reference` (the `ref` field of the Branch,
Tag and Deploy variants, spec §3); declared outside the visible files,
represented by its JSON image. -/
structure Reference where
  json : Jval

/-- Modelled from the spec: `scm.Action` (the `action` field of several
variants, spec §3); declared outside the visible files, represented by its
JSON image. -/
structure Action where
  json : Jval

/-- Modelled from the spec: `scm.Issue` (spec §3); declared outside the
visible files, represented by its JSON image. -/
structure Issue where
  json : Jval

/-- Modelled from the spec: `scm.Comment` (spec §3); declared outside the
visible files, represented by its JSON image. -/
structure Comment where
  json : Jval

/-- Modelled from the spec: `scm.PullRequest` (spec §3); declared outside
the visible files, represented by its JSON image. -/
structure PullRequest where
  json : Jval

/-- Modelled from the spec: `scm.Review` (spec §3); declared outside the
visible files, represented by its JSON image. -/
structure Review where
  json : Jval

/-- The `Label` struct (webhook.go lines 33–38). -/
structure Label where
  URL : String
  Name : String
  Description : String
  Color : String

/-- Serialization of `Label` under `json.Marshal`: no tags, so the Go field
names are the keys, in declaration order. -/
def Label.toJval (l : Label) : Jval :=
  .jobj [("URL", .jstr l.URL), ("Name", .jstr l.Name),
         ("Description", .jstr l.Description), ("Color", .jstr l.Color)]

/-- The `PushCommit` struct (webhook.go lines 41–47). -/
structure PushCommit where
  ID : String
  Message : String
  Added : List String
  Removed : List String
  Modified : List String

/-- Serialization of `PushCommit` under `json.Marshal`. -/
def PushCommit.toJval (c : PushCommit) : Jval :=
  .jobj [("ID", .jstr c.ID), ("Message", .jstr c.Message),
         ("Added", .jarr (c.Added.map .jstr)),
         ("Removed", .jarr (c.Removed.map .jstr)),
         ("Modified", .jarr (c.Modified.map .jstr))]

/-- The `PullRequestHookBranchFrom` struct (webhook.go lines 102–104). -/
structure PullRequestHookBranchFrom where
  From : String

/-- Serialization of `PullRequestHookBranchFrom` under `json.Marshal`. -/
def PullRequestHookBranchFrom.toJval (b : PullRequestHookBranchFrom) : Jval :=
  .jobj [("From", .jstr b.From)]

/-- The `PullRequestHookBranch` struct (webhook.go lines 106–110). -/
structure PullRequestHookBranch where
  Ref : PullRequestHookBranchFrom
  Sha : PullRequestHookBranchFrom
  Repo : Repository

/-- Serialization of `PullRequestHookBranch` under `json.Marshal`. -/
def PullRequestHookBranch.toJval (b : PullRequestHookBranch) : Jval :=
  .jobj [("Ref", b.Ref.toJval), ("Sha", b.Sha.toJval), ("Repo", b.Repo.json)]

/-- The `PullRequestHookChanges` struct (webhook.go lines 112–114). -/
structure PullRequestHookChanges where
  Base : PullRequestHookBranch

/-- Serialization of `PullRequestHookChanges` under `json.Marshal`. -/
def PullRequestHookChanges.toJval (c : PullRequestHookChanges) : Jval :=
  .jobj [("Base", c.Base.toJval)]

/-- The `PushHook` struct (webhook.go lines 50–64). -/
structure PushHook where
  Ref : String
  BaseRef : String
  Repo : Repository
  Before : String
  After : String
  Created : Bool
  Deleted : Bool
  Forced : Bool
  Compare : String
  Commits : List PushCommit
  Commit : Commit
  Sender : User
  GUID : String

/-- The `BranchHook` struct (webhook.go lines 68–73). -/
structure BranchHook where
  Ref : Reference
  Repo : Repository
  Action : Action
  Sender : User

/-- The `TagHook` struct (webhook.go lines 77–82). -/
structure TagHook where
  Ref : Reference
  Repo : Repository
  Action : Action
  Sender : User

/-- The `IssueHook` struct (webhook.go lines 85–90). -/
structure IssueHook where
  Action : Action
  Repo : Repository
  Issue : Issue
  Sender : User

/-- The `IssueCommentHook` struct (webhook.go lines 94–100). -/
structure IssueCommentHook where
  Action : Action
  Repo : Repository
  Issue : Issue
  Comment : Comment
  Sender : User

/-- The `PullRequestHook` struct (webhook.go lines 118–126). -/
structure PullRequestHook where
  Action : Action
  Repo : Repository
  Label : Label
  PullRequest : PullRequest
  Sender : User
  Changes : PullRequestHookChanges
  GUID : String

/-- The `PullRequestCommentHook` struct (webhook.go lines 130–136). -/
structure PullRequestCommentHook where
  Action : Action
  Repo : Repository
  PullRequest : PullRequest
  Comment : Comment
  Sender : User

/-- The `ReviewCommentHook` struct (webhook.go lines 140–145). -/
structure ReviewCommentHook where
  Action : Action
  Repo : Repository
  PullRequest : PullRequest
  Review : Review

/-- The `DeployHook` struct (webhook.go lines 149–158); its `Data` field is
a bare `interface\x7b\x7d`, an arbitrary JSON-serializable value. -/
structure DeployHook where
  Data : Jval
  Desc : String
  Ref : Reference
  Repo : Repository
  Sender : User
  Target : String
  TargetURL : String
  Task : String

/-- Models `PushHook.MarshalJSON` (webhook.go lines 187–206): the hook's
fields are stored in a `map[string]interface\x7b\x7d` under the wire key
names together with the `type` discriminator, and the map is serialized by
`json.Marshal` (which sorts the keys). -/
def PushHook.marshalJSON (h : PushHook) : Jval :=
  marshalMap [("type", .jstr "pushHook"),
    ("ref", .jstr h.Ref), ("baseRef", .jstr h.BaseRef), ("repo", h.Repo.json),
    ("before", .jstr h.Before), ("after", .jstr h.After),
    ("created", .jbool h.Created), ("deleted", .jbool h.Deleted),
    ("forced", .jbool h.Forced), ("compare", .jstr h.Compare),
    ("commits", .jarr (h.Commits.map PushCommit.toJval)),
    ("commit", h.Commit.json), ("sender", h.Sender.json),
    ("guid", .jstr h.GUID)]

/-- Models `BranchHook.MarshalJSON` (webhook.go lines 209–219). -/
def BranchHook.marshalJSON (h : BranchHook) : Jval :=
  marshalMap [("type", .jstr "branchHook"),
    ("ref", h.Ref.json), ("repo", h.Repo.json),
    ("action", h.Action.json), ("sender", h.Sender.json)]

/-- Models `DeployHook.MarshalJSON` (webhook.go lines 222–236). -/
def DeployHook.marshalJSON (h : DeployHook) : Jval :=
  marshalMap [("type", .jstr "deployHook"),
    ("data", h.Data), ("desc", .jstr h.Desc), ("ref", h.Ref.json),
    ("repo", h.Repo.json), ("sender", h.Sender.json),
    ("target", .jstr h.Target), ("targetUrl", .jstr h.TargetURL),
    ("task", .jstr h.Task)]

/-- Models `TagHook.MarshalJSON` (webhook.go lines 239–248). -/
def TagHook.marshalJSON (h : TagHook) : Jval :=
  marshalMap [("type", .jstr "tagHook"),
    ("ref", h.Ref.json), ("repo", h.Repo.json),
    ("action", h.Action.json), ("sender", h.Sender.json)]

/-- Models `IssueHook.MarshalJSON` (webhook.go lines 252–261). -/
def IssueHook.marshalJSON (h : IssueHook) : Jval :=
  marshalMap [("type", .jstr "issueHook"),
    ("action", h.Action.json), ("repo", h.Repo.json),
    ("issue", h.Issue.json), ("sender", h.Sender.json)]

/-- Models `IssueCommentHook.MarshalJSON` (webhook.go lines 265–275). -/
def IssueCommentHook.marshalJSON (h : IssueCommentHook) : Jval :=
  marshalMap [("type", .jstr "issueCommentHook"),
    ("action", h.Action.json), ("repo", h.Repo.json),
    ("issue", h.Issue.json), ("comment", h.Comment.json),
    ("sender", h.Sender.json)]

/-- Models `PullRequestHook.MarshalJSON` (webhook.go lines 279–291). -/
def PullRequestHook.marshalJSON (h : PullRequestHook) : Jval :=
  marshalMap [("type", .jstr "pullRequestHook"),
    ("action", h.Action.json), ("repo", h.Repo.json),
    ("label", h.Label.toJval), ("pullRequest", h.PullRequest.json),
    ("sender", h.Sender.json), ("changes", h.Changes.toJval),
    ("guid", .jstr h.GUID)]

/-- Models `PullRequestCommentHook.MarshalJSON` (webhook.go lines
295–305). -/
def PullRequestCommentHook.marshalJSON (h : PullRequestCommentHook) : Jval :=
  marshalMap [("type", .jstr "pullRequestCommentHook"),
    ("action", h.Action.json), ("repo", h.Repo.json),
    ("pullRequest", h.PullRequest.json), ("comment", h.Comment.json),
    ("sender", h.Sender.json)]

/-- Models `ReviewCommentHook.MarshalJSON` (webhook.go lines 309–319). -/
def ReviewCommentHook.marshalJSON (h : ReviewCommentHook) : Jval :=
  marshalMap [("type", .jstr "reviewCommentHook"),
    ("action", h.Action.json), ("repo", h.Repo.json),
    ("pullRequest", h.PullRequest.json), ("review", h.Review.json)]

/-- The closed union of concrete webhook variants behind the `scm.Webhook`
interface. -/
inductive Webhook where
  | push (h : PushHook)
  | branch (h : BranchHook)
  | tag (h : TagHook)
  | deploy (h : DeployHook)
  | issue (h : IssueHook)
  | issueComment (h : IssueCommentHook)
  | pullRequest (h : PullRequestHook)
  | pullRequestComment (h : PullRequestCommentHook)
  | reviewComment (h : ReviewCommentHook)

/-- Dispatch of the custom `MarshalJSON` method through the `scm.Webhook`
interface: encoding a boxed variant runs that variant's marshaller. -/
def Webhook.marshalJSON : Webhook → Jval
  | .push h => h.marshalJSON
  | .branch h => h.marshalJSON
  | .tag h => h.marshalJSON
  | .deploy h => h.marshalJSON
  | .issue h => h.marshalJSON
  | .issueComment h => h.marshalJSON
  | .pullRequest h => h.marshalJSON
  | .pullRequestComment h => h.marshalJSON
  | .reviewComment h => h.marshalJSON

/-- The `WebhookUnmarshaler` struct (webhook.go lines 27–30); `hookTy` is
its `Type` field (renamed: `Type` is reserved in Lean) and `hook` its
`Webhook` field, a possibly-nil interface value. -/
structure WebhookUnmarshaler where
  hookTy : String
  hook : Option Webhook

/-- How a run of `WebhookUnmarshaler.UnmarshalJSON` can fail: a
`json.Unmarshal` type error from the first unmarshal (the payload is not a
JSON object or null), a runtime nil-pointer-dereference panic, or the
`json: Unmarshal(nil *T)` error of unmarshalling into a nil pointer. -/
inductive DecodeErr where
  | typeError (msg : String)
  | nilDereference
  | invalidUnmarshal (ty : String)
  deriving DecidableEq, Repr

/-- Models `WebhookUnmarshaler.UnmarshalJSON` (webhook.go lines 322–420)
on the parse tree of its input.  Step one, `json.Unmarshal(b, &objMap)`,
succeeds exactly when the document is a JSON object (or null, which leaves
the map nil).  Step two then reads `*rawMessage` where `rawMessage` is the
just-declared `*json.RawMessage`, still nil — a nil-pointer dereference
that panics before the `type` discriminator is ever consulted, so the
dispatch chain of lines 336–417 (which compares `webhookMap["type"]`
against the nine literals and unmarshals into nil hook pointers, several of
the branches targeting `*IssueHook` regardless of the discriminator) is
unreachable. -/
def webhookUnmarshalJSON (b : Jval) : Except DecodeErr WebhookUnmarshaler :=
  match b with
  | .jobj _ => .error .nilDereference
  | .jnull => .error .nilDereference
  | _ => .error (.typeError "json: cannot unmarshal value into Go value of type map[string]*json.RawMessage")

end scm

/-! ## Observables and concrete fixtures shared by the theorems -/

/-- The keys of a JSON object, in the order they are written. -/
def objKeys : Jval → List String
  | .jobj fs => fs.map Prod.fst
  | _ => []

/-- Field of a JSON object by key. -/
def objLookup (v : Jval) (k : String) : Option Jval :=
  match v with
  | .jobj fs => fs.lookup k
  | _ => none

/-- A client whose rate snapshot is the zero value. -/
def client0 : ClientState := ⟨⟨0, 0, 0⟩⟩

/-- A 404 response carrying the GitLab error body of the spec's example. -/
def res404nf : Response := ⟨404, [], "\x7b\"message\":\"not found\"\x7d", "", ⟨0, 0, 0⟩⟩

/-- A success response with an empty body. -/
def res200empty : Response := ⟨200, [], "", "", ⟨0, 0, 0⟩⟩

/-- A success response whose body is the single-element namespace array of
the spec's example. -/
def resAcme : Response := ⟨200, [], "[\x7b\"id\":1,\"name\":\"acme\"\x7d]", "", ⟨0, 0, 0⟩⟩

/-- A non-success response carrying well-formed rate-limit headers and a
request id. -/
def resRateHeaders : Response :=
  ⟨500, [("RateLimit-Limit", "600"), ("RateLimit-Remaining", "599"),
         ("RateLimit-Reset", "1700000000"), ("X-Request-Id", "req-1")],
   "", "", ⟨0, 0, 0⟩⟩

/-- A success response whose `RateLimit-Reset` header is not a number. -/
def resBadReset : Response :=
  ⟨200, [("RateLimit-Reset", "soon")], "", "", ⟨0, 0, 0⟩⟩

/-- A success response whose namespace body carries a type-mismatched `id`
field (a string where an int is expected) next to a well-typed `name`
field. -/
def resMismatch : Response :=
  ⟨200, [], "\x7b\"id\":\"x\",\"name\":\"acme\"\x7d", "", ⟨0, 0, 0⟩⟩

/-! ## Helper lemmas -/

/-- Populating the envelope does not change the status. -/
theorem populate_status (res : Response) : (populate res).status = res.status := rfl

/-- Populating the envelope does not change the body. -/
theorem populate_body (res : Response) : (populate res).body = res.body := rfl

/-- Rebuilding a string from its characters is the identity. -/
theorem stringMk_data (s : String) : String.mk s.data = s := by
  cases s
  rfl

/-- The Go slice `s[1:len(s)-1]` of a bracketed string removes exactly the
two bracket characters. -/
theorem goSlice_bracket (inner : String) :
    goSlice ("[" ++ inner ++ "]") 1 ((("[" ++ inner ++ "]").length : Int) - 1)
      = some inner := by
  have hlen : ("[" ++ inner ++ "]").length = inner.length + 2 := by
    rw [String.length_append, String.length_append]
    have h1 : "[".length = 1 := rfl
    have h2 : "]".length = 1 := rfl
    omega
  rw [goSlice, if_pos]
  · have hdata : ("[" ++ inner ++ "]").data = '[' :: (inner.data ++ [']']) := by
      simp [String.data_append]
    rw [hdata, hlen]
    have htoNat : ((((inner.length + 2 : Nat) : Int) - 1) - 1).toNat = inner.length := by
      omega
    rw [htoNat]
    simp only [Int.toNat_one, List.drop_succ_cons, List.drop_zero]
    have : inner.data.length = inner.length := rfl
    rw [← this, List.take_left, stringMk_data]
  · rw [hlen]
    constructor
    · omega
    constructor
    · omega
    · omega

/-- The Go slice `s[1:len(s)-1]` panics when the string is shorter than two
characters. -/
theorem goSlice_short (s : String) (h : s.length < 2) :
    goSlice s 1 ((s.length : Int) - 1) = none := by
  rw [goSlice, if_neg]
  intro hc
  omega

/-- When the pointer-targeted unmarshal of a non-nil namespace pointer
fails, the pointer stays non-nil: only the error-free `null` document can
nil it (a failing object decode still leaves the — possibly partially
populated — struct in place). -/
theorem unmarshalNamespacePtr_err_isSome (body : String) (p : GlNamespace)
    (h : (unmarshalNamespacePtr body (some p)).2 ≠ none) :
    (unmarshalNamespacePtr body (some p)).1.isSome = true := by
  rw [unmarshalNamespacePtr] at h ⊢
  cases hp : jsonParse body with
  | none => rfl
  | some v =>
    rw [hp] at h
    cases v with
    | jnull => exact absurd rfl h
    | jobj fs => rfl
    | jbool b => rfl
    | jnum n => rfl
    | jstr s => rfl
    | jarr xs => rfl

/-- Branch lemma: `do` on a non-success status (strictly above 300) decodes
the body through the error pointer and leaves the output pointer
untouched. -/
theorem wrapperDo_success_high (client : ClientState) (res : Response)
    (out : Option (Option GlNamespace)) (h : 300 < res.status) :
    wrapperDo client (.success res) out =
      ⟨ClientState.mk (populate res).rate, some (populate res),
       some (.gl (unmarshalErrorPtr res.body (some ⟨""⟩))), out⟩ := by
  simp only [wrapperDo]
  rw [if_pos (show 300 < (populate res).status from h)]
  rfl

/-- Branch lemma: `do` on a success status with no output requested decodes
nothing and returns no error. -/
theorem wrapperDo_success_low_noout (client : ClientState) (res : Response)
    (h : res.status ≤ 300) :
    wrapperDo client (.success res) none =
      ⟨ClientState.mk (populate res).rate, some (populate res), none, none⟩ := by
  simp only [wrapperDo]
  rw [if_neg (show ¬ 300 < (populate res).status from not_lt.2 h)]

/-- Branch lemma: `do` on a success status with an output requested
unmarshals the body into the output pointer. -/
theorem wrapperDo_success_low_out (client : ClientState) (res : Response)
    (p : Option GlNamespace) (h : res.status ≤ 300) :
    wrapperDo client (.success res) (some p) =
      ⟨ClientState.mk (populate res).rate, some (populate res),
       (unmarshalNamespacePtr res.body p).2.map .unmarshal,
       some (unmarshalNamespacePtr res.body p).1⟩ := by
  simp only [wrapperDo]
  rw [if_neg (show ¬ 300 < (populate res).status from not_lt.2 h)]
  rfl

/-! ## Claim theorems -/

/-- C1: the spec's round-trip property `decode(encode(v)) = v` fails for
every field assignment of every one of the nine webhook variants:
`WebhookUnmarshaler.UnmarshalJSON` dereferences its still-nil `rawMessage`
pointer immediately after the first unmarshal succeeds, so decoding any
encoded variant aborts in a nil-pointer panic and never returns the
value. -/
theorem webhook_roundtrip_decode_always_panics :
    ∀ w : scm.Webhook, scm.webhookUnmarshalJSON w.marshalJSON = .error .nilDereference :=
  fun w => by cases w <;> rfl

/-- C2: decoding a JSON object with an unknown `type` (and likewise one
with no `type` field at all) does not fail with a distinct
"unrecognized webhook type" condition: the decoder panics on the nil
`rawMessage` dereference before it ever reads the discriminator (and the
dispatch chain it never reaches has no unknown-type failure arm either —
an unmatched discriminator would fall through to a `nil`-error return). -/
theorem webhook_decode_unknown_or_missing_type_panics :
    scm.webhookUnmarshalJSON (.jobj [("type", .jstr "bogus")]) = .error .nilDereference
  ∧ scm.webhookUnmarshalJSON (.jobj []) = .error .nilDereference := ⟨rfl, rfl⟩

/-- C3 counterexample: encoding a branch hook writes `action`, not `type`,
as the first key — `json.Marshal` sorts the keys of the hook map — even
though the `type` key is present with its exact literal. -/
theorem webhook_encode_type_key_not_first :
    (objKeys (scm.BranchHook.marshalJSON ⟨⟨.jnull⟩, ⟨.jnull⟩, ⟨.jnull⟩, ⟨.jnull⟩⟩)).head?
        = some "action"
  ∧ objLookup (scm.BranchHook.marshalJSON ⟨⟨.jnull⟩, ⟨.jnull⟩, ⟨.jnull⟩, ⟨.jnull⟩⟩) "type"
        = some (.jstr "branchHook")
  ∧ "action" ≠ "type" := ⟨rfl, rfl, by decide⟩

set_option maxHeartbeats 2000000 in
/-- C3 as amended: for every variant value, the encoding carries a `type`
key with exactly the discriminator literal of the table, but the keys
appear in sorted order — `type` is the last key of every variant's
encoding, not the first. -/
theorem webhook_encode_type_key_literal_sorted_last :
    (∀ h : scm.PushHook, objKeys h.marshalJSON
        = ["after", "baseRef", "before", "commit", "commits", "compare", "created",
           "deleted", "forced", "guid", "ref", "repo", "sender", "type"]
      ∧ objLookup h.marshalJSON "type" = some (.jstr "pushHook"))
  ∧ (∀ h : scm.BranchHook, objKeys h.marshalJSON = ["action", "ref", "repo", "sender", "type"]
      ∧ objLookup h.marshalJSON "type" = some (.jstr "branchHook"))
  ∧ (∀ h : scm.TagHook, objKeys h.marshalJSON = ["action", "ref", "repo", "sender", "type"]
      ∧ objLookup h.marshalJSON "type" = some (.jstr "tagHook"))
  ∧ (∀ h : scm.DeployHook, objKeys h.marshalJSON
        = ["data", "desc", "ref", "repo", "sender", "target", "targetUrl", "task", "type"]
      ∧ objLookup h.marshalJSON "type" = some (.jstr "deployHook"))
  ∧ (∀ h : scm.IssueHook, objKeys h.marshalJSON = ["action", "issue", "repo", "sender", "type"]
      ∧ objLookup h.marshalJSON "type" = some (.jstr "issueHook"))
  ∧ (∀ h : scm.IssueCommentHook, objKeys h.marshalJSON
        = ["action", "comment", "issue", "repo", "sender", "type"]
      ∧ objLookup h.marshalJSON "type" = some (.jstr "issueCommentHook"))
  ∧ (∀ h : scm.PullRequestHook, objKeys h.marshalJSON
        = ["action", "changes", "guid", "label", "pullRequest", "repo", "sender", "type"]
      ∧ objLookup h.marshalJSON "type" = some (.jstr "pullRequestHook"))
  ∧ (∀ h : scm.PullRequestCommentHook, objKeys h.marshalJSON
        = ["action", "comment", "pullRequest", "repo", "sender", "type"]
      ∧ objLookup h.marshalJSON "type" = some (.jstr "pullRequestCommentHook"))
  ∧ (∀ h : scm.ReviewCommentHook, objKeys h.marshalJSON
        = ["action", "pullRequest", "repo", "review", "type"]
      ∧ objLookup h.marshalJSON "type" = some (.jstr "reviewCommentHook")) :=
  ⟨fun _ => ⟨rfl, rfl⟩, fun _ => And.intro rfl rfl, fun _ => ⟨rfl, rfl⟩,
   fun _ => And.intro rfl rfl, fun _ => ⟨rfl, rfl⟩, fun _ => And.intro rfl rfl,
   fun _ => ⟨rfl, rfl⟩, fun _ => And.intro rfl rfl, fun _ => ⟨rfl, rfl⟩⟩

/-- C4 counterexample: a response with status exactly 300 is NOT routed to
the error decoder — `do` tests `res.Status > 300` strictly, so at 300 the
call returns no error, contradicting the claim's "300 or greater". -/
theorem do_status_300_takes_success_branch :
    (wrapperDo client0 (.success ⟨300, [], "\x7b\"message\":\"redirect\"\x7d", "", ⟨0, 0, 0⟩⟩) none).err
      = none := rfl

/-- C4 as amended: for every status strictly greater than 300 the body is
routed to the error decoder, the resulting error value is returned and the
output pointer is left untouched (no output decoding); for every status of
at most 300 with no output requested, no error is returned and nothing is
decoded. -/
theorem do_error_branch_iff_status_above_300 (client : ClientState) (res : Response)
    (out : Option (Option GlNamespace)) :
    (300 < res.status →
      (wrapperDo client (.success res) out).err
          = some (.gl (unmarshalErrorPtr res.body (some ⟨""⟩)))
        ∧ (wrapperDo client (.success res) out).outPtr = out)
  ∧ (res.status ≤ 300 →
      (wrapperDo client (.success res) none).err = none
        ∧ (wrapperDo client (.success res) none).outPtr = none) := by
  constructor
  · intro h
    rw [wrapperDo_success_high client res out h]
    exact ⟨rfl, rfl⟩
  · intro h
    rw [wrapperDo_success_low_noout client res h]
    exact ⟨rfl, rfl⟩

/-- Witness: the amended C4 statement at status 404 (error branch taken,
output pointer untouched) and at status 200 with no output (no error, no
decoding). -/
theorem do_error_branch_iff_status_above_300_witness :
    ((wrapperDo client0 (.success res404nf) (some (some nsZero))).err
        = some (.gl (unmarshalErrorPtr res404nf.body (some ⟨""⟩)))
      ∧ (wrapperDo client0 (.success res404nf) (some (some nsZero))).outPtr = some (some nsZero))
  ∧ ((wrapperDo client0 (.success res200empty) none).err = none
      ∧ (wrapperDo client0 (.success res200empty) none).outPtr = none) :=
  ⟨(do_error_branch_iff_status_above_300 client0 res404nf (some (some nsZero))).1 (by decide),
   (do_error_branch_iff_status_above_300 client0 res200empty none).2 (by decide)⟩

/-- C5 counterexample: an error body that is exactly the JSON literal
`null` is valid JSON lacking a `message` field, yet the returned error is
not an error value with an empty message — `json.Unmarshal` writes through
the second indirection of `&err_i` and sets the `*Error` pointer itself to
nil (its display form would dereference a nil receiver), so the claim's
"for every body … lacking a message field an error value with an empty
message is returned" fails. -/
theorem do_null_error_body_returns_nil_error_pointer :
    (wrapperDo client0 (.success ⟨404, [], "null", "", ⟨0, 0, 0⟩⟩) none).err = some (.gl none)
  ∧ (wrapperDo client0 (.success ⟨404, [], "null", "", ⟨0, 0, 0⟩⟩) none).err
      ≠ some (.gl (some ⟨""⟩)) := ⟨rfl, by decide⟩

/-- C5 as amended: for every non-success response (status strictly above
300) the error branch returns the decoded error pointer alongside the
envelope with its status preserved; when the body is an object with a
string `message` the error's display form equals that message, when the
body is invalid JSON or an object without a `message` the display form is
the empty string — the one exception being a body of exactly `null`, which
nils the error pointer itself (the counterexample). -/
theorem do_error_display_equals_message_field (client : ClientState) (res : Response)
    (h : 300 < res.status) :
    (wrapperDo client (.success res) none).err
        = some (.gl (unmarshalErrorPtr res.body (some ⟨""⟩)))
  ∧ (wrapperDo client (.success res) none).res = some (populate res)
  ∧ (populate res).status = res.status
  ∧ (∀ fs m, jsonParse res.body = some (.jobj fs) → fs.lookup "message" = some (.jstr m) →
        (unmarshalErrorPtr res.body (some ⟨""⟩)).map glErrorString = some m)
  ∧ (jsonParse res.body = none →
        (unmarshalErrorPtr res.body (some ⟨""⟩)).map glErrorString = some "")
  ∧ (∀ fs, jsonParse res.body = some (.jobj fs) → fs.lookup "message" = none →
        (unmarshalErrorPtr res.body (some ⟨""⟩)).map glErrorString = some "") := by
  have hw := wrapperDo_success_high client res none h
  refine ⟨by rw [hw], by rw [hw], rfl, ?_, ?_, ?_⟩
  · intro fs m hp hm
    simp only [unmarshalErrorPtr, hp, hm]
    rfl
  · intro hp
    simp only [unmarshalErrorPtr, hp]
    rfl
  · intro fs hp hm
    simp only [unmarshalErrorPtr, hp, hm]
    rfl

/-- Witness: the spec's example — status 404 with body carrying
`message: not found` yields an error displaying "not found" and an
envelope with status 404. -/
theorem do_error_display_equals_message_field_witness :
    (wrapperDo client0 (.success res404nf) none).err = some (.gl (some ⟨"not found"⟩))
  ∧ (wrapperDo client0 (.success res404nf) none).res = some (populate res404nf)
  ∧ (populate res404nf).status = 404
  ∧ glErrorString ⟨"not found"⟩ = "not found" :=
  have h := do_error_display_equals_message_field client0 res404nf (by decide)
  ⟨by rw [h.1]; rfl, h.2.1, h.2.2.1, rfl⟩

/-- C6: for every completed exchange, whatever the status (error statuses
included), the request id and the rate-limit triple are taken from the
response headers and the process-wide rate snapshot is overwritten with
exactly that triple (the same triple lands in the returned envelope); a
missing or unparseable rate-limit header leaves the corresponding field at
zero and propagates no failure. -/
theorem do_rate_and_request_id_extraction_unconditional (client : ClientState)
    (res : Response) (out : Option (Option GlNamespace)) :
    (wrapperDo client (.success res) out).client.rate
        = ⟨atoi (headerGet res.header "RateLimit-Limit"),
           atoi (headerGet res.header "RateLimit-Remaining"),
           atoi (headerGet res.header "RateLimit-Reset")⟩
  ∧ (wrapperDo client (.success res) out).res = some (populate res)
  ∧ (populate res).id = headerGet res.header "X-Request-Id"
  ∧ (populate res).rate = (wrapperDo client (.success res) out).client.rate
  ∧ (¬ isGoIntStr (headerGet res.header "RateLimit-Limit") = true →
        (wrapperDo client (.success res) out).client.rate.limit = 0)
  ∧ (¬ isGoIntStr (headerGet res.header "RateLimit-Remaining") = true →
        (wrapperDo client (.success res) out).client.rate.remaining = 0)
  ∧ (¬ isGoIntStr (headerGet res.header "RateLimit-Reset") = true →
        (wrapperDo client (.success res) out).client.rate.reset = 0) := by
  have hcr : (wrapperDo client (.success res) out).client
        = ClientState.mk (populate res).rate
      ∧ (wrapperDo client (.success res) out).res = some (populate res) := by
    rcases le_or_lt res.status 300 with hle | hgt
    · cases out with
      | none => rw [wrapperDo_success_low_noout client res hle]; exact ⟨rfl, rfl⟩
      | some p => rw [wrapperDo_success_low_out client res p hle]; exact ⟨rfl, rfl⟩
    · rw [wrapperDo_success_high client res out hgt]; exact ⟨rfl, rfl⟩
  obtain ⟨hc, hr⟩ := hcr
  refine ⟨by rw [hc]; rfl, hr, rfl, by rw [hc], ?_, ?_, ?_⟩
  · intro h
    rw [hc]
    show atoi (headerGet res.header "RateLimit-Limit") = 0
    simp [atoi, h]
  · intro h
    rw [hc]
    show atoi (headerGet res.header "RateLimit-Remaining") = 0
    simp [atoi, h]
  · intro h
    rw [hc]
    show atoi (headerGet res.header "RateLimit-Reset") = 0
    simp [atoi, h]

/-- Witness: the spec's header example evaluated on an error response
(status 500, showing the update is unconditional), plus a response whose
`RateLimit-Reset` header does not parse, leaving zero. -/
theorem do_rate_and_request_id_extraction_unconditional_witness :
    (wrapperDo client0 (.success resRateHeaders) none).client.rate = ⟨600, 599, 1700000000⟩
  ∧ (populate resRateHeaders).id = "req-1"
  ∧ resRateHeaders.status = 500
  ∧ (wrapperDo client0 (.success resBadReset) none).client.rate.reset = 0 :=
  have h1 := do_rate_and_request_id_extraction_unconditional client0 resRateHeaders none
  have h2 := do_rate_and_request_id_extraction_unconditional client0 resBadReset none
  ⟨by rw [h1.1]; rfl, by rw [h1.2.2.1]; rfl, rfl, h2.2.2.2.2.2.2 (by decide)⟩

/-- C7: on every success response whose body is a bracketed string
`[` ++ inner ++ `]`, array-unwrap decoding strips exactly the two bracket
characters and unmarshals the remainder `inner` into the output target —
the decoded result is the contained object with no brackets remaining. -/
theorem do_gl_namespace_unwraps_singleton_array (client : ClientState) (res : Response)
    (p : Option GlNamespace) (inner : String)
    (hb : res.body = "[" ++ inner ++ "]") (hs : res.status ≤ 300) :
    wrapperDoGlNamespace client (.success res) (some p)
      = .ok ⟨ClientState.mk (populate res).rate, some (populate res),
             (unmarshalNamespacePtr inner p).2.map .unmarshal,
             some (unmarshalNamespacePtr inner p).1⟩ := by
  simp only [wrapperDoGlNamespace]
  rw [if_neg (show ¬ 300 < (populate res).status from not_lt.2 hs)]
  rw [populate_body, hb, goSlice_bracket inner]

/-- Witness: the spec's example — status 200 with the single-element
namespace array body decodes to the acme namespace object. -/
theorem do_gl_namespace_unwraps_singleton_array_witness :
    resAcme.status ≤ 300
  ∧ wrapperDoGlNamespace client0 (.success resAcme) (some (some nsZero))
      = .ok ⟨client0, some (populate resAcme), none,
             some (some ⟨1, "acme", "", "", "", 0, "", ""⟩)⟩ :=
  ⟨by decide,
   by
    rw [do_gl_namespace_unwraps_singleton_array client0 resAcme (some nsZero)
      "\x7b\"id\":1,\"name\":\"acme\"\x7d" rfl (by decide)]
    rfl⟩

/-- C8: contrary to the claim, a success response with a body shorter than
two characters does not fail cleanly when array-unwrap decoding is
requested: the stripping expression `buf.String()[1:len(str_buf)-1]`
evaluates a slice whose bounds are out of range, a runtime panic. -/
theorem do_gl_namespace_short_body_slice_panics (client : ClientState) (res : Response)
    (p : Option GlNamespace) (hs : res.status ≤ 300) (hb : res.body.length < 2) :
    wrapperDoGlNamespace client (.success res) (some p)
      = .panics (ClientState.mk (populate res).rate) "slice bounds out of range" := by
  simp only [wrapperDoGlNamespace]
  rw [if_neg (show ¬ 300 < (populate res).status from not_lt.2 hs)]
  rw [populate_body, goSlice_short res.body hb]

/-- Witness: the panic at the spec's own edge case, a status-200 response
with an empty body. -/
theorem do_gl_namespace_short_body_slice_panics_witness :
    res200empty.status ≤ 300 ∧ res200empty.body.length < 2
  ∧ wrapperDoGlNamespace client0 (.success res200empty) (some (some nsZero))
      = .panics client0 "slice bounds out of range" :=
  ⟨by decide, by decide,
   by
    rw [do_gl_namespace_short_body_slice_panics client0 res200empty (some nsZero)
      (by decide) (by decide)]
    rfl⟩

/-- C9: `findNamespaceByName` does issue the query-string search
`api/v4/namespaces?search=<name>`, but contrary to the claim it routes the
call through the plain `do` executor rather than the array-unwrapping
`do_gl_namespace`, so the array-shaped success body of the namespace
listing fails to unmarshal into the single-object target and the zero
namespace is returned with a decode error instead of the contained
object. -/
theorem findNamespaceByName_plain_do_fails_on_array_body :
    (findNamespaceByName client0 (.success resAcme) "acme").err
        = some (.unmarshal "json: cannot unmarshal value into Go value of type gitlab.gl_namespace")
  ∧ (findNamespaceByName client0 (.success resAcme) "acme").ns = some nsZero
  ∧ (findNamespaceByName client0 (.success resAcme) "acme").reqPath
        = "api/v4/namespaces?search=acme" := ⟨rfl, rfl, rfl⟩

/-- C10 counterexample: a success response whose body is the JSON literal
`null` makes `json.Unmarshal` set the caller's namespace pointer itself to
nil, so `findNamespaceByName` returns a nil namespace (with no error) —
the claim's "for every outcome ... non-nil" fails. -/
theorem findNamespaceByName_null_body_yields_nil :
    (findNamespaceByName client0 (.success ⟨200, [], "null", "", ⟨0, 0, 0⟩⟩) "acme").ns = none
  ∧ (findNamespaceByName client0 (.success ⟨200, [], "null", "", ⟨0, 0, 0⟩⟩) "acme").err
        = none := ⟨rfl, rfl⟩

/-- C10 as amended: whenever `findNamespaceByName` returns an error — a
transport failure, an error status, or a decode failure — the returned
namespace pointer is non-nil; it need not be zero-valued, because
`json.Unmarshal` saves a field type-mismatch error and keeps decoding the
remaining fields (a body whose `id` is a string still populates `name`,
returning an error together with a partially populated namespace); a nil
namespace can only come out of the error-free null-body decode of the
counterexample. -/
theorem findNamespaceByName_nonnil_whenever_error :
    (∀ (client : ClientState) (tr : TransportResult) (name : String),
        (findNamespaceByName client tr name).err ≠ none →
        (findNamespaceByName client tr name).ns.isSome = true)
  ∧ (findNamespaceByName client0 (.success resMismatch) "acme").err ≠ none
  ∧ (findNamespaceByName client0 (.success resMismatch) "acme").ns
      = some ⟨0, "acme", "", "", "", 0, "", ""⟩ := by
  refine ⟨?_, by decide, rfl⟩
  intro client tr name h
  cases tr with
  | failure msg => rfl
  | success res =>
    rcases le_or_lt res.status 300 with hle | hgt
    · have hw := wrapperDo_success_low_out client res (some nsZero) hle
      simp only [findNamespaceByName, hw] at h ⊢
      have h2 : (unmarshalNamespacePtr res.body (some nsZero)).2 ≠ none := by
        intro hn
        rw [hn] at h
        exact h rfl
      simp only [Option.getD_some]
      exact unmarshalNamespacePtr_err_isSome res.body nsZero h2
    · have hw := wrapperDo_success_high client res (some (some nsZero)) hgt
      simp only [findNamespaceByName, hw]
      rfl

/-- Witness: a transport failure — the call errors, and the returned
namespace pointer is non-nil. -/
theorem findNamespaceByName_nonnil_whenever_error_witness :
    (findNamespaceByName client0 (.failure "connection refused") "acme").err ≠ none
  ∧ (findNamespaceByName client0 (.failure "connection refused") "acme").ns.isSome = true :=
  ⟨by decide,
   findNamespaceByName_nonnil_whenever_error.1 client0 (.failure "connection refused") "acme"
     (by decide)⟩
